/-
Verification of the buildlog-consultant apt module
(src/buildlog_consultant/apt.py) against its design specification.

The Python source is shallow-embedded below: each Python function becomes a
Lean definition over `List String` line buffers.  Python list indexing
(including negative indices and IndexError), the `assert` statement, the
`NameError` raised by an unbound loop variable, and dictionary `KeyError`
are made explicit through the `Fault` type and `Except Fault` results.
The regular expressions of the source are embedded through a small
backtracking matcher (`rmatch`) over token lists transcribed from the
source's patterns, with `.` matching any character except a newline and
greedy `(.*)` / `([^c]+)` groups, mirroring Python `re.match` semantics
(anchored at the start, unanchored at the end).

External collaborators (the YAML decoder `yaml.safe_load` and the Debian
relation grammar `PkgRelation.parse_relations`) are opaque to the source
per the specification, and are therefore taken as parameters.
-/

import Mathlib

set_option maxRecDepth 4096

/-- Single-quote character (codepoint 39), used to build the source's
pattern literals that contain quotes. -/
def sqc : Char := Char.ofNat 39

/-- Single-quote string. -/
def sqs : String := String.singleton sqc

/-- Python `str` whitespace (as stripped by `str.strip()`): space, tab,
newline, carriage return, vertical tab, form feed. -/
def pyIsSpace (c : Char) : Bool :=
  c == ' ' || c == '\t' || c == '\n' || c == '\r' ||
  c == Char.ofNat 11 || c == Char.ofNat 12

/-- Remove the characters satisfying `p` from both ends of a char list. -/
def pyStripList (p : Char → Bool) (cs : List Char) : List Char :=
  ((cs.dropWhile p).reverse.dropWhile p).reverse

/-- Python `s.strip()`. -/
def pyStrip (s : String) : String := String.mk (pyStripList pyIsSpace s.data)

/-- Python `s.strip("\n")`. -/
def pyStripNl (s : String) : String :=
  String.mk (pyStripList (fun c => c == '\n') s.data)

/-- Python `s.startswith(pre)`. -/
def pyStartsWith (s pre : String) : Bool := pre.data.isPrefixOf s.data

/-- Python `s.endswith(suf)`. -/
def pyEndsWith (s suf : String) : Bool := suf.data.isSuffixOf s.data

/-- Python list subscription `xs[i]` for an `int` index: non-negative
indices are positions from the front, negative indices count from the
back; `none` models an `IndexError`. -/
def pyGet (xs : List String) (i : Int) : Option String :=
  if 0 ≤ i then xs[i.toNat]?
  else if (-i).toNat ≤ xs.length then xs[xs.length - (-i).toNat]? else none

/-- Tokens of the regular expressions appearing in the source: a literal
run, `.` (any character but a newline), a greedy captured `(.*)` group,
and a greedy captured `([^c]+)` group. -/
inductive RTok where
  | lit (s : List Char)
  | dot
  | star
  | plusNot (c : Char)

/-- Backtracking matcher for `re.match`: anchored at the start of the
input, unanchored at the end, `.` never matches a newline, groups are
greedy (longest alternative tried first, exactly as Python's backtracking
engine resolves these patterns).  Returns the list of captured groups on
success. -/
def rmatch : List RTok → List Char → Option (List (List Char))
  | [], _ => some []
  | .lit l :: ts, s =>
      if l.isPrefixOf s then rmatch ts (s.drop l.length) else none
  | .dot :: ts, s =>
      match s with
      | [] => none
      | c :: rest => if c == '\n' then none else rmatch ts rest
  | .star :: ts, s =>
      let m := (s.takeWhile (fun c => !(c == '\n'))).length
      (List.range (m + 1)).reverse.findSome? (fun k =>
        (rmatch ts (s.drop k)).map (fun gs => s.take k :: gs))
  | .plusNot b :: ts, s =>
      let m := (s.takeWhile (fun c => !(c == b))).length
      (List.range m).reverse.findSome? (fun j =>
        (rmatch ts (s.drop (j + 1))).map (fun gs => s.take (j + 1) :: gs))

/-- Prefix tested before the fetch-failure pattern:
`line.startswith("E: Failed to fetch ")`. -/
def litFetch : String := "E: Failed to fetch "

/-- `^E: Failed to fetch ([^ ]+)  (.*)` -/
def P1 : List RTok := [.lit litFetch.data, .plusNot ' ', .lit "  ".data, .star]

/-- `E: Broken packages` (exact-equality alternative 1). -/
def brokenMsg1 : String := "E: Broken packages"

/-- `E: Unable to correct problems, you have held broken packages.`
(exact-equality alternative 2; the source writes it as two adjacent
string literals). -/
def brokenMsg2 : String :=
  "E: Unable to correct problems, you have held broken " ++ "packages."

/-- `E: The repository '([^']+)' does not have a Release file.` -/
def P3 : List RTok :=
  [.lit ("E: The repository " ++ sqs).data, .plusNot sqc,
   .lit (sqs ++ " does not have a Release file").data, .dot]

/-- `dpkg-deb: error: unable to write file '(.*)': No space left on device` -/
def P4 : List RTok :=
  [.lit ("dpkg-deb: error: unable to write file " ++ sqs).data, .star,
   .lit (sqs ++ ": No space left on device").data]

/-- `E: You don't have enough free space in (.*)\.` -/
def P5 : List RTok :=
  [.lit ("E: You don" ++ sqs ++ "t have enough free space in ").data, .star,
   .lit ".".data]

/-- `E: Unable to locate package (.*)` -/
def P7 : List RTok := [.lit "E: Unable to locate package ".data, .star]

/-- `dpkg: error: (.*)` -/
def P8 : List RTok := [.lit "dpkg: error: ".data, .star]

/-- `dpkg: error processing package (.*) \((.*)\):` -/
def P9 : List RTok :=
  [.lit "dpkg: error processing package ".data, .star, .lit " (".data,
   .star, .lit "):".data]

/-- ` cannot copy extracted data for '(.*)' to '(.*)': failed to write
\(No space left on device\)` (first pattern of the forward pass). -/
def P10 : List RTok :=
  [.lit (" cannot copy extracted data for " ++ sqs).data, .star,
   .lit (sqs ++ " to " ++ sqs).data, .star,
   .lit (sqs ++ ": failed to write (No space left on device)").data]

/-- ` .*: No space left on device` (second pattern of the forward pass). -/
def P11 : List RTok := [.lit " ".data, .star, .lit ": No space left on device".data]

/-- `install (.*) build dependencies.*` (section-name filter of
`find_install_deps_failure_description`). -/
def PInstall : List RTok := [.lit "install ".data, .star, .lit " build dependencies".data]

/-- Faults the Python source can raise: list `IndexError`, failed
`assert`, `NameError`/`UnboundLocalError` for an unbound variable, and
dictionary `KeyError`. -/
inductive Fault where
  | indexError
  | assertionError
  | nameError
  | keyError
deriving DecidableEq, Repr

/-- The Problem taxonomy of apt.py as a closed variant type.  `R` is
the opaque package-relation value produced by the external
`PkgRelation.parse_relations` (the relation grammar is an external
collaborator).  The field-free `noSpaceOnDevice` variant stands for the
`NoSpaceOnDevice` class imported from the package's `common` module. -/
inductive Problem (R : Type) where
  | dpkgError (error : String)
  | aptFetchFailure (url : String) (error : String)
  | aptMissingReleaseFile (url : String)
  | aptPackageUnknown (package : String)
  | aptBrokenPackages (description : String)
  | noSpaceOnDevice
  | unsatisfiedDependencies (relations : List R)
  | unsatisfiedConflicts (relations : List R)
deriving DecidableEq

/-- The `__eq__` methods of the Problem classes, transcribed per class.
Each first checks `isinstance(other, type(self))` (the variants have no
subclasses, so this is a variant-tag check) and then compares fields as
the source writes the comparison.  Note the `aptMissingReleaseFile`
case: the source tests `if self.url != self.url` — a self-comparison —
so no field is actually compared.  The `noSpaceOnDevice` case is
Modelled from the spec: `NoSpaceOnDevice` lives in the `common` module
(not part of the sources here) and the spec's table gives it no fields,
so, per the invariant in the spec's section 3, two instances of the same
variant with no fields compare equal. -/
def problemEq {R : Type} [DecidableEq R] : Problem R → Problem R → Bool
  | .dpkgError e1, .dpkgError e2 => e1 == e2
  | .aptFetchFailure u1 e1, .aptFetchFailure u2 e2 => u1 == u2 && e1 == e2
  | .aptMissingReleaseFile u1, .aptMissingReleaseFile _ =>
      if u1 != u1 then false else true
  | .aptPackageUnknown p1, .aptPackageUnknown p2 => p1 == p2
  | .aptBrokenPackages d1, .aptBrokenPackages d2 => d1 == d2
  | .noSpaceOnDevice, .noSpaceOnDevice => true
  | .unsatisfiedDependencies r1, .unsatisfiedDependencies r2 => decide (r1 = r2)
  | .unsatisfiedConflicts r1, .unsatisfiedConflicts r2 => decide (r1 = r2)
  | _, _ => false

/-- The scan-result triple of `find_apt_get_failure`:
`(line offset, line, error object)`.  The offset is an `Int` because the
source's second pass can produce negative values. -/
abbrev ScanTup (R : Type) := Option Int × Option String × Option (Problem R)

/-- Outcome of handling one line inside the reverse window scan of
`find_apt_get_failure`: an early `return`, a raised fault, or
"fall through to the next iteration" with the (possibly updated)
fallback result `ret`. -/
inductive StepRes (R : Type) where
  | done (r : ScanTup R)
  | err (f : Fault)
  | next (ret : ScanTup R)

/-- The fallback update of `find_apt_get_failure`:
`if line.startswith("E: ") and ret[0] is None: ret = (lineno + 1, line, None)`.
It does not stop the scan. -/
def fallbackUpdate {R : Type} (lineno : Int) (line : String) (ret : ScanTup R) :
    ScanTup R :=
  if pyStartsWith line "E: " && ret.1.isNone then (some (lineno + 1), some line, none)
  else ret

/-- The body of the reverse window loop of `find_apt_get_failure` for one
line: the source's cascade of pattern tests, in source order.  `raw` is
`lines[lineno]`; the source strips trailing/leading newlines first.  The
broken-packages case reads `lines[lineno - 1]` (Python indexing: at
`lineno = 0` this wraps to the last line); the dpkg-processing case reads
`lines[lineno + 1]` (an `IndexError` when the matched line is last). -/
def processLine {R : Type} (lines : List String) (lineno : Int) (raw : String)
    (ret : ScanTup R) : StepRes R :=
  let line := pyStripNl raw
  if pyStartsWith line litFetch then
    match rmatch P1 line.data with
    | some (u :: e :: _) =>
        .done (some (lineno + 1), some line,
          some (.aptFetchFailure (String.mk u) (String.mk e)))
    | _ => .done (some (lineno + 1), some line, none)
  else if line == brokenMsg1 || line == brokenMsg2 then
    match pyGet lines (lineno - 1) with
    | none => .err .indexError
    | some prev =>
        .done (some lineno, some (pyStrip prev),
          some (.aptBrokenPackages (pyStrip prev)))
  else match rmatch P3 line.data with
  | some (u :: _) =>
      .done (some (lineno + 1), some line, some (.aptMissingReleaseFile (String.mk u)))
  | _ =>
  match rmatch P4 line.data with
  | some _ => .done (some (lineno + 1), some line, some .noSpaceOnDevice)
  | none =>
  match rmatch P5 line.data with
  | some _ => .done (some (lineno + 1), some line, some .noSpaceOnDevice)
  | none =>
  let ret1 := fallbackUpdate lineno line ret
  match rmatch P7 line.data with
  | some (p :: _) =>
      .done (some (lineno + 1), some line, some (.aptPackageUnknown (String.mk p)))
  | _ =>
  match rmatch P8 line.data with
  | some (msg :: _) =>
      if pyEndsWith (String.mk msg) ": No space left on device" then
        .done (some (lineno + 1), some line, some .noSpaceOnDevice)
      else
        .done (some (lineno + 1), some line, some (.dpkgError (String.mk msg)))
  | _ =>
  match rmatch P9 line.data with
  | some (g1 :: g2 :: _) =>
      match pyGet lines (lineno + 1) with
      | none => .err .indexError
      | some nxt =>
          .done (some (lineno + 2), some (pyStrip nxt),
            some (.dpkgError ("processing package " ++ String.mk g1 ++ " (" ++
              String.mk g2 ++ ")")))
  | _ => .next ret1

/-- True when a line triggers one of the early-`return` branches of the
reverse window scan (everything except the non-stopping `E: ` fallback):
used to state which lines let the scan continue. -/
def stopsScan (line : String) : Bool :=
  pyStartsWith line litFetch || line == brokenMsg1 || line == brokenMsg2 ||
  (rmatch P3 line.data).isSome || (rmatch P4 line.data).isSome ||
  (rmatch P5 line.data).isSome || (rmatch P7 line.data).isSome ||
  (rmatch P8 line.data).isSome || (rmatch P9 line.data).isSome

/-- The reverse window loop `for i in range(1, OFFSET)` of
`find_apt_get_failure`, with `rem = 50 - i` iterations left so that the
recursion is structural.  Returns `.inl r` for an early `return r`,
`.inr (lineno, ret)` when the loop falls through (`lineno` keeps the
loop variable's last value, as in the source: `len(lines) - 49` when the
window is exhausted, negative when the `lineno < 0` break fired). -/
def scanWindowGo {R : Type} (lines : List String) :
    Nat → Nat → ScanTup R → Except Fault (ScanTup R ⊕ (Int × ScanTup R))
  | 0, _, ret => .ok (.inr ((lines.length : Int) - 49, ret))
  | rem + 1, i, ret =>
      let lineno : Int := (lines.length : Int) - i
      if lineno < 0 then .ok (.inr (lineno, ret))
      else
        match pyGet lines lineno with
        | none => .error .indexError
        | some raw =>
            match processLine lines lineno raw ret with
            | .done r => .ok (.inl r)
            | .err f => .error f
            | .next ret1 => scanWindowGo lines rem (i + 1) ret1

/-- The full reverse window scan: 49 iterations (`OFFSET = 50`),
starting at `i = 1` with `ret = (None, None, None)`. -/
def scanWindow {R : Type} (lines : List String) :
    Except Fault (ScanTup R ⊕ (Int × ScanTup R)) :=
  scanWindowGo lines 49 1 (none, none, none)

/-- The second, forward full-buffer pass of `find_apt_get_failure`
(`for i, line in enumerate(lines)`), testing only the two disk-space
patterns; on a match it returns offset `lineno + i` where `lineno` is
the leftover value of the first loop's variable. -/
def forwardPass {R : Type} (lineno : Int) : List String → Nat → Option (ScanTup R)
  | [], _ => none
  | l :: rest, i =>
      if (rmatch P10 l.data).isSome then
        some (some (lineno + (i : Int)), some l, some .noSpaceOnDevice)
      else if (rmatch P11 l.data).isSome then
        some (some (lineno + (i : Int)), some l, some .noSpaceOnDevice)
      else forwardPass lineno rest (i + 1)

/-- `find_apt_get_failure(lines)`: reverse window scan, then the forward
disk-space pass over the whole buffer, then the fallback `ret`. -/
def find_apt_get_failure {R : Type} (lines : List String) :
    Except Fault (ScanTup R) :=
  match scanWindow (R := R) lines with
  | .error f => .error f
  | .ok (.inl r) => .ok r
  | .ok (.inr (lineno, ret)) =>
      match forwardPass lineno lines 0 with
      | some r => .ok r
      | none => .ok ret

/-- `find_apt_get_update_failure(paragraphs)` uses the fixed section
`update chroot` (absent section → empty line list) and delegates. -/
def find_apt_get_update_failure {R : Type}
    (paragraphs : List (Option String × List String)) :
    Except Fault (String × ScanTup R) :=
  let focus_section := "update chroot"
  let lines := (match (paragraphs.find? (fun p => p.1 == some focus_section)) with
    | some p => p.2
    | none => [])
  match find_apt_get_failure (R := R) lines with
  | .error f => .error f
  | .ok r => .ok (focus_section, r)

/-- The backward search `for i in range(len(lines) - 1, 0, -1)` of
`find_cudf_output`: the first index from `len(lines) - 1` **down to 1**
(index 0 is outside the range) whose line starts with
`output-version: `; `none` when the loop ends without `break`. -/
def findOVgo (lines : List String) : Nat → Option Nat
  | 0 => none
  | i + 1 =>
      match lines[i + 1]? with
      | some s =>
          if pyStartsWith s "output-version: " then some (i + 1) else findOVgo lines i
      | none => findOVgo lines i

/-- Start of the backward search of `find_cudf_output`. -/
def findOutputVersion (lines : List String) : Option Nat :=
  findOVgo lines (lines.length - 1)

/-- The block-collection loop of `find_cudf_output`:
`while lines[i].strip(): output.append(lines[i]); i += 1`.
Evaluating `lines[i]` past the end raises `IndexError`.  The structural
fuel is set by the caller to `lines.length + 1 - i`, which the loop can
never exhaust: the index grows by one per iteration, so the fuel-zero
branch is only reached with `i > lines.length`, where the source also
raises `IndexError`. -/
def collectBlockGo (lines : List String) : Nat → Nat → Except Fault (List String)
  | 0, _ => .error .indexError
  | fuel + 1, i =>
      match lines[i]? with
      | none => .error .indexError
      | some s =>
          if (pyStrip s).isEmpty then .ok []
          else
            match collectBlockGo lines fuel (i + 1) with
            | .error f => .error f
            | .ok rest => .ok (s :: rest)

/-- The block-collection loop started at index `i`. -/
def collectBlock (lines : List String) (i : Nat) : Except Fault (List String) :=
  collectBlockGo lines (lines.length + 1 - i) i

/-- `find_cudf_output(lines)`: locate the `output-version: ` line
scanning backward (indices `len-1` down to `1`), collect the contiguous
non-blank block from there, and hand the joined block to the external
YAML decoder `safe_load` (a parameter; the source calls
`yaml.safe_load`).  `.ok none` is the source's `return None` ("not
found"). -/
def find_cudf_output {Doc : Type} (safe_load : String → Doc) (lines : List String) :
    Except Fault (Option Doc) :=
  match findOutputVersion lines with
  | none => .ok none
  | some i =>
      match collectBlock lines i with
      | .error f => .error f
      | .ok output => .ok (some (safe_load (String.intercalate "\n" output)))

/-- The `missing` sub-structure of a dose3 reason:
`reason["missing"]["pkg"]["unsat-dependency"]`. -/
structure MissingInfo where
  unsat_dependency : String
deriving DecidableEq

/-- The `conflict` sub-structure of a dose3 reason:
`reason["conflict"]["pkg1"]["unsat-conflict"]`. -/
structure ConflictInfo where
  unsat_conflict : String
deriving DecidableEq

/-- One entry of the `reasons` list of a broken dose3 package: it may
carry a `missing` and/or a `conflict` sub-structure. -/
structure Dose3Reason where
  missing : Option MissingInfo
  conflict : Option ConflictInfo
deriving DecidableEq

/-- One per-package entry of a dose3 report, with its `package`,
`status` and `reasons` fields. -/
structure Dose3Entry where
  package : String
  status : String
  reasons : List Dose3Reason
deriving DecidableEq

/-- One iteration of the reasons loop of `error_from_dose3_report`:
extend the `missing` accumulator with the parsed
`missing.pkg.unsat-dependency` when the reason has a `missing` key, and
the `conflict` accumulator with the parsed `conflict.pkg1.unsat-conflict`
when it has a `conflict` key. -/
def dose3Step {R : Type} (parse_relations : String → List R)
    (acc : List R × List R) (reason : Dose3Reason) : List R × List R :=
  let m := match reason.missing with
    | some mi => acc.1 ++ parse_relations mi.unsat_dependency
    | none => acc.1
  let c := match reason.conflict with
    | some ci => acc.2 ++ parse_relations ci.unsat_conflict
    | none => acc.2
  (m, c)

/-- `error_from_dose3_report(report)`.  The source first asserts
`packages == ["sbuild-build-depends-main-dummy"]` (a failed `assert` is
the `assertionError` fault); `report[0]` on an empty list would be an
`IndexError`, though the assertion already excludes that.  The external
`PkgRelation.parse_relations` is the `parse_relations` parameter. -/
def error_from_dose3_report {R : Type} (parse_relations : String → List R)
    (report : List Dose3Entry) : Except Fault (Option (Problem R)) :=
  if report.map Dose3Entry.package = ["sbuild-build-depends-main-dummy"] then
    match report with
    | [] => .error .indexError
    | entry :: _ =>
        if entry.status ≠ "broken" then .ok none
        else
          let acc := entry.reasons.foldl (dose3Step parse_relations) ([], [])
          if !acc.1.isEmpty then .ok (some (.unsatisfiedDependencies acc.1))
          else if !acc.2.isEmpty then .ok (some (.unsatisfiedConflicts acc.2))
          else .ok none
  else .error .assertionError

/-- Specification-side description of the `missing` accumulator: the
parsed `unsat-dependency` strings of the reasons carrying a `missing`
sub-structure, concatenated in reason order. -/
def missingOf {R : Type} (parse_relations : String → List R) :
    List Dose3Reason → List R
  | [] => []
  | r :: rs =>
      (match r.missing with
       | some mi => parse_relations mi.unsat_dependency
       | none => []) ++ missingOf parse_relations rs

/-- Specification-side description of the `conflict` accumulator. -/
def conflictOf {R : Type} (parse_relations : String → List R) :
    List Dose3Reason → List R
  | [] => []
  | r :: rs =>
      (match r.conflict with
       | some ci => parse_relations ci.unsat_conflict
       | none => []) ++ conflictOf parse_relations rs

/-- The decoded YAML document handed to `error_from_dose3_report` by
`find_install_deps_failure_description`: subscription
`dose3_output["report"]` raises `KeyError` when the key is absent. -/
structure Dose3Doc where
  report : Option (List Dose3Entry)

/-- Python `paragraphs.get(key)` for the section map, which preserves
insertion order (modelled as an association list). -/
def pyDictGet (paragraphs : List (Option String × List String)) (key : Option String) :
    Option (List String) :=
  (paragraphs.find? (fun p => p.1 == key)).map (fun p => p.2)

/-- The fixed dose3 section name. -/
def DOSE3_SECTION : String := "install dose3 build dependencies (aspcud-based resolver)"

/-- The `for focus_section, lines in paragraphs.items()` loop of
`find_install_deps_failure_description`.  `last` records whether the
loop variable `focus_section` has been bound so far and, if so, its
latest value (a section key, possibly the `None` key): the final
`return focus_section, None, None, error` raises a `NameError` when the
map was empty and the variable was never bound. -/
def installDepsLoop {R : Type} :
    List (Option String × List String) → Option (Option String) →
    Option (Problem R) →
    Except Fault (Option String × Option Int × Option String × Option (Problem R))
  | [], last, error =>
      match last with
      | none => .error .nameError
      | some fs => .ok (fs, none, none, error)
  | (fs, lines) :: rest, _, error =>
      match fs with
      | none => installDepsLoop rest (some none) error
      | some s =>
          if (rmatch PInstall s.data).isSome then
            match find_apt_get_failure (R := R) lines with
            | .error f => .error f
            | .ok (offset, line, v_error) =>
                let error1 := if error.isNone then v_error else error
                match offset with
                | some off => .ok (some s, some off, line, error1)
                | none => installDepsLoop rest (some (some s)) error1
          else installDepsLoop rest (some (some s)) error

/-- `find_install_deps_failure_description(paragraphs)`.  First the
dose3 path: when the dose3 section is present and non-empty (Python
truthiness of the line list), run `find_cudf_output` with the external
decoder `safe_load`; when that yields a truthy document (Lean
`some (some doc)`: `safe_load` itself may return a falsy value,
modelled as `none`), take its `report` key (`KeyError` when absent) and
interpret it.  Then scan the sections in map order with the loop above. -/
def find_install_deps_failure_description {R : Type}
    (parse_relations : String → List R) (safe_load : String → Option Dose3Doc)
    (paragraphs : List (Option String × List String)) :
    Except Fault (Option String × Option Int × Option String × Option (Problem R)) :=
  let errE : Except Fault (Option (Problem R)) :=
    match pyDictGet paragraphs (some DOSE3_SECTION) with
    | none => .ok none
    | some dose3_lines =>
        if dose3_lines.isEmpty then .ok none
        else
          match find_cudf_output safe_load dose3_lines with
          | .error f => .error f
          | .ok none => .ok none
          | .ok (some none) => .ok none
          | .ok (some (some doc)) =>
              match doc.report with
              | none => .error .keyError
              | some rep => error_from_dose3_report parse_relations rep
  match errE with
  | .error f => .error f
  | .ok error => installDepsLoop paragraphs none error

/-- An option whose `isSome` is `false` is `none`. -/
theorem isSome_false_eq_none {α : Type} {o : Option α} (h : o.isSome = false) :
    o = none := by
  cases o with
  | none => rfl
  | some a => simp [Option.isSome] at h

/-- A successful `rmatch` on a pattern starting with a literal means the
literal is a prefix of the input. -/
theorem rmatch_lit_some {l : List Char} {ts : List RTok} {s : List Char}
    {g : List (List Char)} (h : rmatch (.lit l :: ts) s = some g) :
    l.isPrefixOf s = true := by
  by_cases hp : l.isPrefixOf s = true
  · exact hp
  · simp only [rmatch, Bool.not_eq_true] at h hp
    simp [hp] at h

/-- `rmatch` on a pattern starting with a literal fails when the literal
is not a prefix of the input. -/
theorem rmatch_lit_none {l : List Char} {ts : List RTok} {s : List Char}
    (h : l.isPrefixOf s = false) : rmatch (.lit l :: ts) s = none := by
  simp [rmatch, h]

/-- Two incompatible literals cannot both be prefixes of the same input:
if `l1` is a prefix of `s` and neither of `l1`, `l2` is a prefix of the
other, then `l2` is not a prefix of `s`. -/
theorem isPrefixOf_false_of {l1 l2 s : List Char} (h1 : l1.isPrefixOf s = true)
    (h2 : l2.isPrefixOf l1 = false) (h3 : l1.isPrefixOf l2 = false) :
    l2.isPrefixOf s = false := by
  by_contra hb
  have hb' : l2.isPrefixOf s = true := by
    cases hx : l2.isPrefixOf s with
    | false => exact absurd hx hb
    | true => rfl
  have hp2 : l2 <+: s := List.isPrefixOf_iff_prefix.mp hb'
  have hp1 : l1 <+: s := List.isPrefixOf_iff_prefix.mp h1
  rcases le_or_lt l2.length l1.length with hle | hlt
  · have : l2 <+: l1 := List.prefix_of_prefix_length_le hp2 hp1 hle
    rw [← List.isPrefixOf_iff_prefix] at this
    simp [h2] at this
  · have : l1 <+: l2 := List.prefix_of_prefix_length_le hp1 hp2 hlt.le
    rw [← List.isPrefixOf_iff_prefix] at this
    simp [h3] at this

/-- Claim C1.  The spec's invariant says two Problem instances are equal
iff they are of the same variant with field-wise equal fields, and in
particular that two `AptMissingReleaseFile` instances are equal iff
their urls are equal.  The source's `AptMissingReleaseFile.__eq__`
compares `self.url != self.url` instead of `self.url != other.url`, so
two instances with distinct urls compare equal: the code contradicts
the claim at urls `"http://a"` and `"http://b"`.  The
`UnsatisfiedDependencies` half of the claim does hold: equality there
is exactly equality of the relation sequences. -/
theorem claim_C1 :
    problemEq (R := Unit) (.aptMissingReleaseFile "http://a")
      (.aptMissingReleaseFile "http://b") = true
    ∧ ("http://a" : String) ≠ "http://b"
    ∧ ∀ r1 r2 : List String,
        (problemEq (.unsatisfiedDependencies r1) (.unsatisfiedDependencies r2) = true
          ↔ r1 = r2) := by
  refine ⟨rfl, by decide, fun r1 r2 => ?_⟩
  simp [problemEq]

/-- Claim C2.  The claim says `find_cudf_output` returns "not found"
exactly when no line has the `output-version: ` prefix, and that a
buffer whose only prefixed line is its first line (index 0) still
yields that line.  The source's backward loop is
`range(len(lines) - 1, 0, -1)`, which never examines index 0: on the
one-line buffer `["output-version: 1"]` the function returns `None`
("not found") although the line carries the prefix. -/
theorem claim_C2 :
    find_cudf_output (fun s => s) ["output-version: 1"] = .ok none
    ∧ pyStartsWith "output-version: 1" "output-version: " = true :=
  ⟨rfl, by decide⟩

/-- Claim C3.  The claim says every non-none offset of
`find_apt_get_failure` is a 1-based position (at least 1).  In the
second, forward disk-space pass the source returns `lineno + i` where
`lineno` is the stale loop variable of the first pass (left at `-1` for
buffers of at most 48 lines); for the one-line buffer
`[" x: No space left on device"]` the function returns offset `-1`,
which is not a 1-based position. -/
theorem claim_C3 :
    find_apt_get_failure (R := Unit) [" x: No space left on device"] =
      .ok (some (-1), some " x: No space left on device", some .noSpaceOnDevice) := rfl

/-- Claim C4: whenever the sequence of per-entry `package` values of a
dose3 report differs from `["sbuild-build-depends-main-dummy"]`,
`error_from_dose3_report` raises the assertion fault (and in particular
never returns the recoverable no-problem result). -/
theorem claim_C4 {R : Type} (parse_relations : String → List R)
    (report : List Dose3Entry)
    (h : report.map Dose3Entry.package ≠ ["sbuild-build-depends-main-dummy"]) :
    error_from_dose3_report parse_relations report = .error .assertionError := by
  unfold error_from_dose3_report
  simp [h]

/-- Witness for claim C4 at the report `[{package := "other-package", …}]`. -/
theorem claim_C4_witness :
    error_from_dose3_report (fun _ => ([] : List Unit))
      [⟨"other-package", "broken", []⟩] = .error .assertionError :=
  claim_C4 _ _ (by decide)

/-- The reasons loop of `error_from_dose3_report` computes, from any
starting accumulators, the concatenation with the specification-side
accumulators `missingOf` and `conflictOf`. -/
theorem dose3_foldl_spec {R : Type} (parse_relations : String → List R)
    (rs : List Dose3Reason) :
    ∀ m c : List R,
      rs.foldl (dose3Step parse_relations) (m, c) =
        (m ++ missingOf parse_relations rs, c ++ conflictOf parse_relations rs) := by
  induction rs with
  | nil => intro m c; simp [missingOf, conflictOf]
  | cons r rs ih =>
      intro m c
      simp only [List.foldl_cons, missingOf, conflictOf]
      rw [ih]
      cases hm : r.missing <;> cases hc : r.conflict <;>
        simp [dose3Step, hm, hc, List.append_assoc]

/-- Claim C5: on a report with the single dummy package in status
`broken`, `error_from_dose3_report` returns `UnsatisfiedDependencies`
over the accumulated missing relations when these are non-empty
(missing takes precedence even when conflicts were also accumulated),
otherwise `UnsatisfiedConflicts` over the accumulated conflict
relations when those are non-empty, otherwise no problem. -/
theorem claim_C5 {R : Type} (parse_relations : String → List R)
    (entry : Dose3Entry)
    (hpkg : entry.package = "sbuild-build-depends-main-dummy")
    (hst : entry.status = "broken") :
    error_from_dose3_report parse_relations [entry] =
      (if !(missingOf parse_relations entry.reasons).isEmpty then
        .ok (some (.unsatisfiedDependencies (missingOf parse_relations entry.reasons)))
      else if !(conflictOf parse_relations entry.reasons).isEmpty then
        .ok (some (.unsatisfiedConflicts (conflictOf parse_relations entry.reasons)))
      else .ok none) := by
  have hacc := dose3_foldl_spec parse_relations entry.reasons ([] : List R) ([] : List R)
  unfold error_from_dose3_report
  simp [hpkg, hst]
  rw [hacc]
  simp

/-- Witness for claim C5: a broken dummy-package report whose single
reason carries both a `missing` and a `conflict` sub-structure yields
`UnsatisfiedDependencies` (missing takes precedence). -/
theorem claim_C5_witness :
    error_from_dose3_report (fun s => [s])
      [⟨"sbuild-build-depends-main-dummy", "broken",
        [⟨some ⟨"libfoo"⟩, some ⟨"libbar"⟩⟩]⟩] =
      .ok (some (.unsatisfiedDependencies ["libfoo"])) := by
  rw [claim_C5 (fun s => [s])
    ⟨"sbuild-build-depends-main-dummy", "broken", [⟨some ⟨"libfoo"⟩, some ⟨"libbar"⟩⟩]⟩
    rfl rfl]
  rfl

/-- Claim C7: on the two-line buffer
`["some context", "E: Broken packages"]` the scanner returns
`AptBrokenPackages` with description `"some context"`, matched-line
text `"some context"` (the preceding line), and offset 1 — the 1-based
position of the preceding line, not of the `E: Broken packages` line. -/
theorem claim_C7 :
    find_apt_get_failure (R := Unit) ["some context", "E: Broken packages"] =
      .ok (some 1, some "some context", some (.aptBrokenPackages "some context")) := rfl

/-- Claim C8: Python indexing sends index `-1` to the last element, so
when `E: Broken packages` sits at index 0 the "preceding line" access
`lines[lineno - 1]` reads the buffer's last line; on the one-line buffer
`["E: Broken packages"]` the scanner returns offset 0 (not a 1-based
position) with the matched line itself as the description. -/
theorem claim_C8 :
    (∀ xs : List String, pyGet xs (-1) = xs.getLast?)
    ∧ find_apt_get_failure (R := Unit) ["E: Broken packages"] =
        .ok (some 0, some "E: Broken packages",
          some (.aptBrokenPackages "E: Broken packages")) := by
  constructor
  · intro xs
    rw [List.getLast?_eq_getElem?]
    unfold pyGet
    cases xs with
    | nil => simp
    | cons a l => norm_num
  · rfl

/-- Claim C9: on the empty section map
`find_install_deps_failure_description` raises the unbound-variable
fault (`focus_section` is never assigned by the loop) rather than
returning a `(none, none, none, none)` tuple, and a tuple is returned
only when the map contains at least one section. -/
theorem claim_C9 {R : Type} (parse_relations : String → List R)
    (safe_load : String → Option Dose3Doc) :
    find_install_deps_failure_description parse_relations safe_load [] =
      .error .nameError
    ∧ ∀ (paragraphs : List (Option String × List String)) r,
        find_install_deps_failure_description parse_relations safe_load paragraphs =
          .ok r → paragraphs ≠ [] := by
  refine ⟨rfl, ?_⟩
  rintro ps r h rfl
  rw [show find_install_deps_failure_description parse_relations safe_load [] =
      .error .nameError from rfl] at h
  exact Except.noConfusion h

/-- Witness for claim C9 at concrete external collaborators. -/
theorem claim_C9_witness :
    find_install_deps_failure_description (fun s => ([s] : List String))
      (fun _ => none) [] = .error .nameError :=
  (claim_C9 (fun s => [s]) (fun _ => none)).1

/-- When every line from index `i` on is non-blank, the block-collection
loop of `find_cudf_output` walks past the end of the list and raises
`IndexError`, for any fuel. -/
theorem collectBlockGo_nonblank (lines : List String) :
    ∀ (fuel i : Nat),
      ((lines.drop i).all fun s => !(pyStrip s).isEmpty) = true →
      collectBlockGo lines fuel i = .error .indexError := by
  intro fuel
  induction fuel with
  | zero => intro i _; rfl
  | succ fuel ih =>
      intro i h
      cases hg : lines[i]? with
      | none => simp [collectBlockGo, hg]
      | some s =>
          have hi : i < lines.length := by
            by_contra hlt
            rw [List.getElem?_eq_none (Nat.le_of_not_lt hlt)] at hg
            exact Option.noConfusion hg
          have hdrop : lines.drop i = s :: lines.drop (i + 1) := by
            rw [List.drop_eq_getElem_cons hi]
            rw [List.getElem?_eq_getElem hi] at hg
            rw [Option.some_inj.mp hg]
          rw [hdrop, List.all_cons, Bool.and_eq_true] at h
          have hne : ¬((pyStrip s).isEmpty = true) := by
            intro he; rw [he] at h; exact Bool.noConfusion h.1
          simp only [collectBlockGo, hg, if_neg hne, ih (i + 1) h.2]

/-- When the block-collection loop of `find_cudf_output` terminates
normally, some line at or after the start index is blank. -/
theorem collectBlockGo_blank_of_ok (lines : List String) :
    ∀ (fuel i : Nat) (out : List String),
      collectBlockGo lines fuel i = .ok out →
      ∃ s ∈ lines.drop i, (pyStrip s).isEmpty = true := by
  intro fuel
  induction fuel with
  | zero => intro i out h; exact Except.noConfusion h
  | succ fuel ih =>
      intro i out h
      cases hg : lines[i]? with
      | none => simp [collectBlockGo, hg] at h
      | some s =>
          simp only [collectBlockGo, hg] at h
          have hi : i < lines.length := by
            by_contra hlt
            rw [List.getElem?_eq_none (Nat.le_of_not_lt hlt)] at hg
            exact Option.noConfusion hg
          have hdrop : lines.drop i = s :: lines.drop (i + 1) := by
            rw [List.drop_eq_getElem_cons hi]
            rw [List.getElem?_eq_getElem hi] at hg
            rw [Option.some_inj.mp hg]
          by_cases hb : (pyStrip s).isEmpty = true
          · exact ⟨s, by rw [hdrop]; exact List.mem_cons_self s _, hb⟩
          · rw [if_neg hb] at h
            cases hrec : collectBlockGo lines fuel (i + 1) with
            | error f =>
                rw [hrec] at h
                exact Except.noConfusion h
            | ok rest =>
                obtain ⟨t, ht, htb⟩ := ih (i + 1) rest hrec
                exact ⟨t, by rw [hdrop]; exact List.mem_cons_of_mem s ht, htb⟩

/-- Claim C10: once `find_cudf_output` has located the
`output-version: ` line at index `i`, its block-collection loop reads
past the end of the list (`IndexError`) whenever every line from `i` to
the end is non-blank, and it terminates normally (producing a document)
only when a blank or whitespace-only line follows the block. -/
theorem claim_C10 {Doc : Type} (safe_load : String → Doc) (lines : List String)
    (i : Nat) (hfind : findOutputVersion lines = some i) :
    (((lines.drop i).all fun s => !(pyStrip s).isEmpty) = true →
        find_cudf_output safe_load lines = .error .indexError)
    ∧ (∀ d, find_cudf_output safe_load lines = .ok (some d) →
        ∃ s ∈ lines.drop i, (pyStrip s).isEmpty = true) := by
  constructor
  · intro hall
    have hcb : collectBlock lines i = .error .indexError :=
      collectBlockGo_nonblank lines _ i hall
    simp only [find_cudf_output, hfind, hcb]
  · intro d hok
    simp only [find_cudf_output, hfind] at hok
    cases hcb : collectBlock lines i with
    | error f =>
        rw [hcb] at hok
        exact Except.noConfusion hok
    | ok out => exact collectBlockGo_blank_of_ok lines _ i out hcb

/-- Witness for claim C10: the block found at index 1 of
`["", "output-version: 1", "x"]` runs through the last line with no
trailing blank line, so the extractor faults with an index error. -/
theorem claim_C10_witness :
    find_cudf_output (fun s => s) ["", "output-version: 1", "x"] =
      .error .indexError :=
  (claim_C10 (fun s => s) ["", "output-version: 1", "x"] 1 rfl).1 (by decide)

/-- When a line matches the dpkg-processing pattern, the per-line step
of the reverse scan takes the dpkg-processing branch: all earlier
branches test literals incompatible with the
`dpkg: error processing package ` prefix, so the step returns the
DpkgError result built from the following line — or the index fault
when there is no following line. -/
theorem processLine_p9 {R : Type} (lines : List String) (lineno : Int)
    (raw : String) (ret : ScanTup R) (g1 g2 : List Char) (gs : List (List Char))
    (h9 : rmatch P9 (pyStripNl raw).data = some (g1 :: g2 :: gs)) :
    processLine lines lineno raw ret =
      (match pyGet lines (lineno + 1) with
      | none => .err .indexError
      | some nxt => .done (some (lineno + 2), some (pyStrip nxt),
          some (.dpkgError ("processing package " ++ String.mk g1 ++ " (" ++
            String.mk g2 ++ ")")))) := by
  have hpre : ("dpkg: error processing package ".data).isPrefixOf
      (pyStripNl raw).data = true :=
    rmatch_lit_some (show rmatch
      (.lit "dpkg: error processing package ".data ::
        [.star, .lit " (".data, .star, .lit "):".data]) (pyStripNl raw).data =
      some (g1 :: g2 :: gs) from h9)
  have h1 : pyStartsWith (pyStripNl raw) litFetch = false := by
    unfold pyStartsWith litFetch
    exact isPrefixOf_false_of hpre (by decide) (by decide)
  have h2a : ((pyStripNl raw) == brokenMsg1) = false := by
    apply beq_eq_false_iff_ne.mpr
    intro he
    rw [he] at hpre
    exact absurd hpre (by decide)
  have h2b : ((pyStripNl raw) == brokenMsg2) = false := by
    apply beq_eq_false_iff_ne.mpr
    intro he
    rw [he] at hpre
    exact absurd hpre (by decide)
  have hP3 : rmatch P3 (pyStripNl raw).data = none :=
    show rmatch (.lit ("E: The repository " ++ sqs).data :: _) _ = none from
      rmatch_lit_none (isPrefixOf_false_of hpre (by decide) (by decide))
  have hP4 : rmatch P4 (pyStripNl raw).data = none :=
    show rmatch (.lit ("dpkg-deb: error: unable to write file " ++ sqs).data :: _) _ =
        none from
      rmatch_lit_none (isPrefixOf_false_of hpre (by decide) (by decide))
  have hP5 : rmatch P5 (pyStripNl raw).data = none :=
    show rmatch (.lit ("E: You don" ++ sqs ++ "t have enough free space in ").data :: _)
        _ = none from
      rmatch_lit_none (isPrefixOf_false_of hpre (by decide) (by decide))
  have hP7 : rmatch P7 (pyStripNl raw).data = none :=
    show rmatch (.lit "E: Unable to locate package ".data :: _) _ = none from
      rmatch_lit_none (isPrefixOf_false_of hpre (by decide) (by decide))
  have hP8 : rmatch P8 (pyStripNl raw).data = none :=
    show rmatch (.lit "dpkg: error: ".data :: _) _ = none from
      rmatch_lit_none (isPrefixOf_false_of hpre (by decide) (by decide))
  simp only [processLine, h1, h2a, h2b, hP3, hP4, hP5, hP7, hP8, h9,
    Bool.false_eq_true, if_false, Bool.or_self, Bool.false_or]

/-- A line that stops the scan for none of the early-`return` patterns
lets the reverse window scan continue, applying only the fallback
update. -/
theorem processLine_continue {R : Type} (lines : List String) (lineno : Int)
    (raw : String) (ret : ScanTup R)
    (h : stopsScan (pyStripNl raw) = false) :
    processLine lines lineno raw ret =
      .next (fallbackUpdate lineno (pyStripNl raw) ret) := by
  unfold stopsScan at h
  simp only [Bool.or_eq_false_iff] at h
  obtain ⟨⟨⟨⟨⟨⟨⟨⟨hf, hb1⟩, hb2⟩, h3⟩, h4⟩, h5⟩, h7⟩, h8⟩, h9⟩ := h
  simp only [processLine, hf, hb1, hb2,
    isSome_false_eq_none h3, isSome_false_eq_none h4, isSome_false_eq_none h5,
    isSome_false_eq_none h7, isSome_false_eq_none h8, isSome_false_eq_none h9,
    Bool.false_eq_true, if_false, Bool.or_self, Bool.false_or]

/-- The reverse window scan, started at any iteration `i` at or before
the one that visits index `k`, reaches the dpkg-processing header at
index `k` (every line scanned on the way — the lines strictly after
`k` — lets the scan continue) and delivers that branch's result,
whatever the accumulated fallback `ret`. -/
theorem scanWindowGo_reach_p9 {R : Type} (lines : List String) (k : Nat)
    (hdr : String) (g1 g2 : List Char) (gs : List (List Char))
    (hl : lines[k]? = some hdr) (hwin : lines.length < k + 50)
    (h9 : rmatch P9 (pyStripNl hdr).data = some (g1 :: g2 :: gs))
    (hreach : ∀ (j : Nat) (s : String), k < j → lines[j]? = some s →
      stopsScan (pyStripNl s) = false) :
    ∀ (d i : Nat) (ret : ScanTup R), 1 ≤ i → i ≤ lines.length - k →
      lines.length - k - i = d →
      scanWindowGo lines (50 - i) i ret =
        (match pyGet lines ((k : Int) + 1) with
        | none => .error .indexError
        | some nxt => .ok (.inl (some ((k : Int) + 2), some (pyStrip nxt),
            some (.dpkgError ("processing package " ++ String.mk g1 ++ " (" ++
              String.mk g2 ++ ")"))))) := by
  have hkn : k < lines.length := by
    by_contra hlt
    rw [List.getElem?_eq_none (Nat.le_of_not_lt hlt)] at hl
    exact Option.noConfusion hl
  intro d
  induction d with
  | zero =>
      intro i ret h1 h2 hd
      have hik : i = lines.length - k := by omega
      have hrem : 50 - i = (49 - i) + 1 := by omega
      rw [hrem]
      unfold scanWindowGo
      have hlineno : (lines.length : Int) - i = (k : Int) := by
        have : lines.length = k + i := by omega
        rw [this]; push_cast; ring
      rw [hlineno]
      have hnneg : ¬((k : Int) < 0) := by omega
      rw [if_neg hnneg]
      have hget : pyGet lines (k : Int) = some hdr := by
        unfold pyGet
        rw [if_pos (by omega : (0 : Int) ≤ (k : Int))]
        rw [Int.toNat_natCast]
        exact hl
      simp only [hget]
      rw [processLine_p9 lines (k : Int) hdr ret g1 g2 gs h9]
      cases pyGet lines ((k : Int) + 1) with
      | none => rfl
      | some nxt => rfl
  | succ d ih =>
      intro i ret h1 h2 hd
      have hrem : 50 - i = (49 - i) + 1 := by omega
      rw [hrem]
      unfold scanWindowGo
      have hin : i < lines.length - k := by omega
      have hlineno : (lines.length : Int) - i = ((lines.length - i : Nat) : Int) := by
        have : i ≤ lines.length := by omega
        omega
      rw [hlineno]
      have hnneg : ¬(((lines.length - i : Nat) : Int) < 0) := by omega
      rw [if_neg hnneg]
      have hlt : lines.length - i < lines.length := by omega
      obtain ⟨s, hs⟩ : ∃ s, lines[lines.length - i]? = some s :=
        ⟨_, List.getElem?_eq_getElem hlt⟩
      have hget : pyGet lines ((lines.length - i : Nat) : Int) = some s := by
        unfold pyGet
        rw [if_pos (by omega : (0 : Int) ≤ ((lines.length - i : Nat) : Int))]
        rw [Int.toNat_natCast]
        exact hs
      simp only [hget]
      have hstop : stopsScan (pyStripNl s) = false :=
        hreach (lines.length - i) s (by omega) hs
      rw [processLine_continue lines _ _ ret hstop]
      have hrem2 : 49 - i = 50 - (i + 1) := by omega
      rw [hrem2]
      exact ih (i + 1) _ (by omega) (by omega) (by omega)

/-- Claim C6 (amended): when the reverse window scan reaches a line
matching `dpkg: error processing package <name> (<action>):` at index
`k` (the buffer's tail after `k` lies within the 49-line window and
stops the scan nowhere), `find_apt_get_failure` returns
`DpkgError("processing package <name> (<action>)")` with offset `k + 2`
and the **following** line's trimmed text as matched-line text whenever
a following line exists; when the matched line is the last line of the
buffer, the access to the following line is out of bounds and the
scanner faults with an index error instead. -/
theorem claim_C6 {R : Type} (lines : List String) (k : Nat)
    (hdr name action : String)
    (hl : lines[k]? = some hdr) (hwin : lines.length < k + 50)
    (h9 : rmatch P9 (pyStripNl hdr).data = some [name.data, action.data])
    (hreach : ∀ (j : Nat) (s : String), k < j → lines[j]? = some s →
      stopsScan (pyStripNl s) = false) :
    (∀ nxt, lines[k + 1]? = some nxt →
        find_apt_get_failure (R := R) lines =
          .ok (some ((k : Int) + 2), some (pyStrip nxt),
            some (.dpkgError ("processing package " ++ name ++ " (" ++ action ++ ")"))))
    ∧ (lines[k + 1]? = none →
        find_apt_get_failure (R := R) lines = .error .indexError) := by
  have hkn : k < lines.length := by
    by_contra hlt
    rw [List.getElem?_eq_none (Nat.le_of_not_lt hlt)] at hl
    exact Option.noConfusion hl
  have hmain := scanWindowGo_reach_p9 (R := R) lines k hdr name.data action.data
    [] hl hwin h9 hreach (lines.length - k - 1) 1 (none, none, none) le_rfl
    (by omega) rfl
  simp only [show (50 : Nat) - 1 = 49 from rfl] at hmain
  have hpg : pyGet lines ((k : Int) + 1) = lines[k + 1]? := by
    unfold pyGet
    rw [if_pos (by omega : (0 : Int) ≤ (k : Int) + 1)]
    have hc : ((k : Int) + 1) = ((k + 1 : Nat) : Int) := by push_cast; ring
    rw [hc, Int.toNat_natCast]
  rw [hpg] at hmain
  have hname : String.mk name.data = name := by cases name; rfl
  have haction : String.mk action.data = action := by cases action; rfl
  rw [hname, haction] at hmain
  constructor
  · intro nxt hnxt
    simp only [hnxt] at hmain
    unfold find_apt_get_failure scanWindow
    simp only [hmain]
  · intro hnone
    simp only [hnone] at hmain
    unfold find_apt_get_failure scanWindow
    simp only [hmain]

/-- Witness for claim C6: the two-line buffer where a detail line
follows the dpkg-processing header. -/
theorem claim_C6_witness :
    find_apt_get_failure (R := Unit)
      ["dpkg: error processing package foo (configure):", "  detail message"] =
      .ok (some 2, some "detail message",
        some (.dpkgError "processing package foo (configure)")) := by
  have h := (claim_C6 (R := Unit)
    ["dpkg: error processing package foo (configure):", "  detail message"] 0
    "dpkg: error processing package foo (configure):" "foo" "configure"
    rfl (by decide) (by decide)
    (by
      intro j s hj hs
      match j, hs with
      | 1, hs =>
          cases Option.some_inj.mp hs
          decide
      | n + 2, hs => exact Option.noConfusion hs)).1
    "  detail message" rfl
  exact h.trans rfl

/-- Counterexample for claim C6 as stated: on the one-line buffer whose
single line matches the dpkg-processing pattern (the matched line is
the last line), `find_apt_get_failure` does not return a DpkgError
result at all — it faults with an index error reading the following
line. -/
theorem claim_C6_counterexample :
    find_apt_get_failure (R := Unit)
      ["dpkg: error processing package foo (configure):"] =
      .error .indexError := rfl
